import Mathlib

/-!
Verification of the Supabase database shim (`db.js`): a Knex-like query
builder that accumulates equality predicates, sort directives, limit and
offset in a mutable descriptor, and lazily translates them into calls on
the Supabase client's filter/order/limit/range primitives.

The JavaScript source is embedded shallowly:
* `QueryBuilder` mirrors the descriptor object created by
  `createQueryBuilder(tableName)` (fields `_table`, `_wheres`, `_orders`,
  `_limit`, `_offset`); the chainable methods mutate state, which is
  modelled by functions returning the updated descriptor.
* `SupabaseQuery` records the remote query a terminal execution builds by
  chaining `from/select/eq/order/limit/range/insert/update/delete` on the
  Supabase client.
* The remote store is an oracle `SupabaseQuery → SupaResponse` (or
  `SupabaseQuery → RemoteOutcome` where the source also catches thrown
  errors); the execution methods `_runSelect`, `_runInsert`, `_runUpdate`,
  `_runDelete` then post-process its `{data, error}` answer exactly as the
  source does, with a thrown JS error modelled as `Except.error`.
-/

/-- Untyped JS values appearing as predicate values and row fields. -/
inductive Value where
  | int : Int → Value
  | str : String → Value
  | null : Value
deriving DecidableEq, Repr

/-- A row returned by the remote store: a JS object, modelled as an
association list from field names to values. -/
abbrev Row := List (String × Value)

/-- JS property access `row.key`: the first binding of `key`, or null-ish
when the field is absent. -/
def Row.getField (row : Row) (key : String) : Value :=
  match row.find? (fun p => p.1 == key) with
  | some p => p.2
  | none => Value.null

/-- One equality predicate pushed by `where(field, value)`. -/
structure Where where
  field : String
  value : Value
deriving DecidableEq, Repr

/-- One sort directive pushed by `orderBy(field, direction)`. -/
structure OrderDirective where
  field : String
  direction : String
deriving DecidableEq, Repr

/-- The operation a built Supabase query performs: `select(columns)`,
`insert(payload).select()`, `update(payload)` or `delete()`. -/
inductive SupaOp where
  | select : String → SupaOp
  | insert : List Row → SupaOp
  | update : Row → SupaOp
  | delete : SupaOp
deriving DecidableEq, Repr

/-- The remote query accumulated by chaining Supabase client primitives:
table, operation, the `eq` filters in application order, the `order`
directive, and the `limit` / `range` window. -/
structure SupabaseQuery where
  table : String
  op : SupaOp
  eqFilters : List Where
  orderVal : Option (String × Bool)
  limitVal : Option Int
  rangeVal : Option (Int × Int)
deriving DecidableEq, Repr

/-- `supabase.from(table)` followed by the operation call: a fresh query
with no filters, order, limit or range. -/
def SupabaseQuery.init (table : String) (op : SupaOp) : SupabaseQuery :=
  ⟨table, op, [], none, none, none⟩

/-- Supabase `query.eq(field, value)`: appends one equality filter; the
remote store applies all accumulated filters conjunctively. -/
def SupabaseQuery.eq (q : SupabaseQuery) (field : String) (value : Value) : SupabaseQuery :=
  { q with eqFilters := q.eqFilters ++ [⟨field, value⟩] }

/-- Supabase `query.order(field, { ascending })`. -/
def SupabaseQuery.order (q : SupabaseQuery) (field : String) (ascending : Bool) : SupabaseQuery :=
  { q with orderVal := some (field, ascending) }

/-- Supabase `query.limit(n)`. -/
def SupabaseQuery.limit (q : SupabaseQuery) (n : Int) : SupabaseQuery :=
  { q with limitVal := some n }

/-- Supabase `query.range(lo, hi)`: zero-based inclusive row window. -/
def SupabaseQuery.range (q : SupabaseQuery) (lo hi : Int) : SupabaseQuery :=
  { q with rangeVal := some (lo, hi) }

/-- The remote store's reading of the accumulated `eq` filters: a row
matches when every filter's field equals its value (logical AND). -/
def SupabaseQuery.filtersMatch (q : SupabaseQuery) (row : Row) : Bool :=
  q.eqFilters.all (fun w => Row.getField row w.field == w.value)

/-- Errors surfaced by the remote store; the shim never inspects them, so
their carrier is just a message. -/
abbrev DbError := String

/-- The `{data, error}` object a Supabase call resolves with. -/
structure SupaResponse where
  data : Option (List Row)
  error : Option DbError
deriving DecidableEq, Repr

/-- A remote call either resolves with a `{data, error}` object or throws
(relevant only where the source wraps the call in try/catch). -/
inductive RemoteOutcome where
  | returned : SupaResponse → RemoteOutcome
  | thrown : DbError → RemoteOutcome
deriving DecidableEq, Repr

/-- The mutable query descriptor built by `createQueryBuilder(tableName)`. -/
structure QueryBuilder where
  _table : String
  _wheres : List Where
  _orders : List OrderDirective
  _limit : Option Int
  _offset : Option Int
deriving DecidableEq, Repr

/-- `createQueryBuilder(tableName)`: fresh descriptor state. -/
def createQueryBuilder (tableName : String) : QueryBuilder :=
  ⟨tableName, [], [], none, none⟩

/-- `where(field, value)`: pushes `{field, value}` onto `_wheres` and
returns the descriptor. -/
def QueryBuilder.whereEq (qb : QueryBuilder) (field : String) (value : Value) : QueryBuilder :=
  { qb with _wheres := qb._wheres ++ [⟨field, value⟩] }

/-- `orderBy(field, direction)`: pushes `{field, direction}` onto
`_orders` and returns the descriptor. -/
def QueryBuilder.orderBy (qb : QueryBuilder) (field : String) (direction : String) : QueryBuilder :=
  { qb with _orders := qb._orders ++ [⟨field, direction⟩] }

/-- `orderBy(field)` with the direction argument omitted: the source's
default parameter value is the string `'asc'`. -/
def QueryBuilder.orderByDefault (qb : QueryBuilder) (field : String) : QueryBuilder :=
  qb.orderBy field "asc"

/-- `limit(n)`: overwrites `_limit`. -/
def QueryBuilder.limit (qb : QueryBuilder) (n : Int) : QueryBuilder :=
  { qb with _limit := some n }

/-- `offset(n)`: overwrites `_offset`. -/
def QueryBuilder.offset (qb : QueryBuilder) (n : Int) : QueryBuilder :=
  { qb with _offset := some n }

/-- A sequence of `where(f, v)` calls applied left to right. -/
def applyWheres (qb : QueryBuilder) (ws : List (String × Value)) : QueryBuilder :=
  ws.foldl (fun q p => q.whereEq p.1 p.2) qb

/-- A sequence of `orderBy(f, dir)` calls applied left to right. -/
def applyOrders (qb : QueryBuilder) (os : List (String × String)) : QueryBuilder :=
  os.foldl (fun q p => q.orderBy p.1 p.2) qb

/-- JS `x || d` on a number-or-null slot: null and the falsy number 0 both
fall back to the default. -/
def jsOrDefault (x : Option Int) (d : Int) : Int :=
  match x with
  | some v => if v = 0 then d else v
  | none => d

/-- The remote query `_runSelect(columns)` builds before awaiting it:
`supabase.from(_table).select(columns)`, then one `eq` per accumulated
where, then `order` from the first `_orders` entry (ascending iff its
direction is the string `'asc'`), then `limit` when `_limit` is not null,
then `range(_offset, _offset + (_limit || 1000) - 1)` when `_offset` is
not null. -/
def QueryBuilder.runSelectQuery (qb : QueryBuilder) (columns : String) : SupabaseQuery :=
  let q1 := SupabaseQuery.init qb._table (SupaOp.select columns)
  let q2 := qb._wheres.foldl (fun q w => q.eq w.field w.value) q1
  let q3 := match qb._orders with
    | [] => q2
    | o :: _ => q2.order o.field (o.direction == "asc")
  let q4 := match qb._limit with
    | none => q3
    | some n => q3.limit n
  match qb._offset with
  | none => q4
  | some off => q4.range off (off + jsOrDefault qb._limit 1000 - 1)

/-- `_runSelect(columns)` post-processing: `if (error) throw error;
return data || [];` against the store's answer to the built query. -/
def QueryBuilder.runSelect (qb : QueryBuilder) (columns : String)
    (store : SupabaseQuery → SupaResponse) : Except DbError (List Row) :=
  let resp := store (qb.runSelectQuery columns)
  match resp.error with
  | some e => Except.error e
  | none => Except.ok (resp.data.getD [])

/-- `first()`: sets `this._limit = 1`, runs `_runSelect()` with default
columns, and resolves with `data[0] || null`. -/
def QueryBuilder.first (qb : QueryBuilder)
    (store : SupabaseQuery → SupaResponse) : Except DbError (Option Row) :=
  (QueryBuilder.runSelect { qb with _limit := some 1 } "*" store).map List.head?

/-- The implicit thenable execution (`queryBuilder.then` awaiting the
descriptor): `_runSelect()` with default columns. -/
def QueryBuilder.thenResolve (qb : QueryBuilder)
    (store : SupabaseQuery → SupaResponse) : Except DbError (List Row) :=
  qb.runSelect "*" store

/-- The remote query `_runInsert` builds:
`supabase.from(_table).insert(_inserts).select()`. -/
def QueryBuilder.buildInsert (qb : QueryBuilder) (payload : List Row) : SupabaseQuery :=
  SupabaseQuery.init qb._table (SupaOp.insert payload)

/-- `_runInsert` post-processing: `if (error) throw error;
return data?.map(item => item.id) || [];`. -/
def QueryBuilder.runInsert (qb : QueryBuilder) (payload : List Row)
    (store : SupabaseQuery → SupaResponse) : Except DbError (List Value) :=
  let resp := store (qb.buildInsert payload)
  match resp.error with
  | some e => Except.error e
  | none => Except.ok ((resp.data.getD []).map (fun item => Row.getField item "id"))

/-- The remote query `_runUpdate` builds:
`supabase.from(_table).update(_updates)` followed by one `eq` per
accumulated where. -/
def QueryBuilder.buildUpdate (qb : QueryBuilder) (payload : Row) : SupabaseQuery :=
  qb._wheres.foldl (fun q w => q.eq w.field w.value)
    (SupabaseQuery.init qb._table (SupaOp.update payload))

/-- `_runUpdate` post-processing: `if (error) throw error;
return data ? 1 : 0;` — a JS truthiness test on the `data` field, so the
count is 1 exactly when `data` is non-null (arrays, empty included, are
truthy). -/
def QueryBuilder.runUpdate (qb : QueryBuilder) (payload : Row)
    (store : SupabaseQuery → SupaResponse) : Except DbError Nat :=
  let resp := store (qb.buildUpdate payload)
  match resp.error with
  | some e => Except.error e
  | none => Except.ok (match resp.data with | some _ => 1 | none => 0)

/-- The remote query `_runDelete` builds: `supabase.from(_table).delete()`
followed by one `eq` per accumulated where. -/
def QueryBuilder.buildDelete (qb : QueryBuilder) : SupabaseQuery :=
  qb._wheres.foldl (fun q w => q.eq w.field w.value)
    (SupabaseQuery.init qb._table SupaOp.delete)

/-- `_runDelete` post-processing: `if (error) throw error; return 1;`. -/
def QueryBuilder.runDelete (qb : QueryBuilder)
    (store : SupabaseQuery → SupaResponse) : Except DbError Nat :=
  let resp := store qb.buildDelete
  match resp.error with
  | some e => Except.error e
  | none => Except.ok 1

/-- The placeholder row `db.raw` returns for every string other than
`"SELECT 1"`. -/
def rawUnsupportedResult : List Row :=
  [[("message", Value.str "Raw SQL queries are not directly supported with Supabase")]]

/-- `db.raw(sql)`: the single hardcoded string `"SELECT 1"` yields the
canned row `[{ '1': 1 }]`; everything else is only logged and answered
with the unsupported placeholder. The function never touches the Supabase
client, hence it takes no remote-store oracle: no remote call occurs. -/
def dbRaw (sql : String) : List Row :=
  if sql = "SELECT 1" then [[("1", Value.int 1)]]
  else rawUnsupportedResult

/-- The trivial probe query `db.schema.hasTable` issues:
`supabase.from(tableName).select('count').limit(1)`. -/
def hasTableQuery (tableName : String) : SupabaseQuery :=
  (SupabaseQuery.init tableName (SupaOp.select "count")).limit 1

/-- `db.schema.hasTable(tableName)`: returns `!error` from the probe's
`{data, error}` answer, and `false` when the probe throws. -/
def hasTable (tableName : String) (remote : SupabaseQuery → RemoteOutcome) : Bool :=
  match remote (hasTableQuery tableName) with
  | RemoteOutcome.returned resp => resp.error.isNone
  | RemoteOutcome.thrown _ => false

/-! ## Normal forms of the built remote queries -/

/-- Folding `eq` over a list of predicates only appends them to the
filter list, in order. -/
theorem foldl_eq_spec (ws : List Where) (q0 : SupabaseQuery) :
    ws.foldl (fun q w => q.eq w.field w.value) q0
      = { q0 with eqFilters := q0.eqFilters ++ ws } := by
  induction ws generalizing q0 with
  | nil => simp
  | cons w ws ih =>
    rw [List.foldl_cons, ih]
    simp [SupabaseQuery.eq]

/-- A sequence of `where` calls only appends the predicates, in call
order. -/
theorem applyWheres_spec (ws : List (String × Value)) (qb : QueryBuilder) :
    applyWheres qb ws
      = { qb with _wheres := qb._wheres ++ ws.map (fun p => (⟨p.1, p.2⟩ : Where)) } := by
  induction ws generalizing qb with
  | nil => simp [applyWheres]
  | cons p ps ih =>
    rw [applyWheres, List.foldl_cons]
    rw [show (ps.foldl (fun q x => q.whereEq x.1 x.2) (qb.whereEq p.1 p.2)) = applyWheres (qb.whereEq p.1 p.2) ps from rfl, ih]
    simp [QueryBuilder.whereEq]

/-- A sequence of `orderBy` calls only appends the directives, in call
order. -/
theorem applyOrders_spec (os : List (String × String)) (qb : QueryBuilder) :
    applyOrders qb os
      = { qb with _orders := qb._orders ++ os.map (fun p => (⟨p.1, p.2⟩ : OrderDirective)) } := by
  induction os generalizing qb with
  | nil => simp [applyOrders]
  | cons p ps ih =>
    rw [applyOrders, List.foldl_cons]
    rw [show (ps.foldl (fun q x => q.orderBy x.1 x.2) (qb.orderBy p.1 p.2)) = applyOrders (qb.orderBy p.1 p.2) ps from rfl, ih]
    simp [QueryBuilder.orderBy]

/-- Closed form of the remote query `_runSelect` builds from a
descriptor. -/
theorem runSelectQuery_spec (qb : QueryBuilder) (cols : String) :
    qb.runSelectQuery cols =
      { table := qb._table
        op := SupaOp.select cols
        eqFilters := qb._wheres
        orderVal := qb._orders.head?.map (fun o => (o.field, o.direction == "asc"))
        limitVal := qb._limit
        rangeVal := qb._offset.map (fun off => (off, off + jsOrDefault qb._limit 1000 - 1)) } := by
  rcases qb with ⟨t, ws, os, lim, off⟩
  rw [QueryBuilder.runSelectQuery]
  rw [foldl_eq_spec]
  rcases os with _ | ⟨o, os⟩ <;> rcases lim with _ | l <;> rcases off with _ | n <;>
    simp [SupabaseQuery.init, SupabaseQuery.order, SupabaseQuery.limit, SupabaseQuery.range]

/-- Closed form of the remote query `_runUpdate` builds. -/
theorem buildUpdate_spec (qb : QueryBuilder) (payload : Row) :
    qb.buildUpdate payload
      = { table := qb._table, op := SupaOp.update payload, eqFilters := qb._wheres,
          orderVal := none, limitVal := none, rangeVal := none } := by
  rw [QueryBuilder.buildUpdate, foldl_eq_spec]
  simp [SupabaseQuery.init]

/-- Closed form of the remote query `_runDelete` builds. -/
theorem buildDelete_spec (qb : QueryBuilder) :
    qb.buildDelete
      = { table := qb._table, op := SupaOp.delete, eqFilters := qb._wheres,
          orderVal := none, limitVal := none, rangeVal := none } := by
  rw [QueryBuilder.buildDelete, foldl_eq_spec]
  simp [SupabaseQuery.init]

/-! ## Claim theorems -/

/-- C1: every sequence of `where(field, value)` calls followed by a read
trigger (explicit `select`, `first`, or the implicit thenable await, all
of which execute the query built by `runSelectQuery`) yields a remote
filter with exactly one equality condition per `where` call, in call
order, and the accumulated filter is interpreted as the logical AND of
those conditions. -/
theorem where_calls_build_one_anded_eq_filter_each :
    ∀ (t cols : String) (ws : List (String × Value)) (row : Row),
      (((applyWheres (createQueryBuilder t) ws).runSelectQuery cols).eqFilters
          = ws.map (fun p => (⟨p.1, p.2⟩ : Where)))
      ∧ ((({ applyWheres (createQueryBuilder t) ws with _limit := some 1 }
            : QueryBuilder).runSelectQuery "*").eqFilters
          = ws.map (fun p => (⟨p.1, p.2⟩ : Where)))
      ∧ (((applyWheres (createQueryBuilder t) ws).runSelectQuery cols).filtersMatch row = true
          ↔ ∀ p ∈ ws, Row.getField row p.1 = p.2) := by
  intro t cols ws row
  refine ⟨?_, ?_, ?_⟩
  · rw [runSelectQuery_spec, applyWheres_spec]
    simp [createQueryBuilder]
  · rw [runSelectQuery_spec, applyWheres_spec]
    simp [createQueryBuilder]
  · rw [SupabaseQuery.filtersMatch, runSelectQuery_spec, applyWheres_spec]
    simp [createQueryBuilder, List.all_eq_true]
    constructor
    · intro h a b hab
      exact h ⟨a, b⟩ a b hab rfl
    · intro h x a b hab he
      subst he
      exact h a b hab

/-- C2 counterexample: with `limit(0)` and `offset(20)`, the executed
range is `[20, 1019]`, not `[20, 20 + 0 - 1]` as the claim's formula
("L is the accumulated limit if one is set") would require. -/
theorem offset_range_claim_fails_at_limit_zero :
    (((((createQueryBuilder "t").limit 0).offset 20).runSelectQuery "*").rangeVal
        = some (20, 1019))
    ∧ ¬ (((((createQueryBuilder "t").limit 0).offset 20).runSelectQuery "*").rangeVal
        = some (20, 20 + 0 - 1)) := by
  constructor
  · rw [runSelectQuery_spec]
    simp [createQueryBuilder, QueryBuilder.limit, QueryBuilder.offset, jsOrDefault]
  · rw [runSelectQuery_spec]
    simp [createQueryBuilder, QueryBuilder.limit, QueryBuilder.offset, jsOrDefault]

/-- C2 (amended): when `offset(n)` has been called, the remote range is
`[n, n + L - 1]` where `L` is the accumulated limit when one is set and
nonzero, and the default window 1000 when no limit is set or the limit is
0 (the falsy-limit fallback of `_limit || 1000`). -/
theorem offset_range_uses_limit_unless_zero_or_absent :
    ∀ (qb : QueryBuilder) (off : Int) (cols : String),
      qb._offset = some off →
      (qb.runSelectQuery cols).rangeVal
        = some (off, off + (match qb._limit with
            | some l => if l = 0 then 1000 else l
            | none => 1000) - 1) := by
  intro qb off cols h
  rw [runSelectQuery_spec]
  rcases hl : qb._limit with _ | l <;> simp [h, hl, jsOrDefault]

/-- C2 witness: in particular, `offset(20)` with no limit set yields the
range `[20, 1019]`. -/
theorem offset_range_uses_limit_unless_zero_or_absent_witness :
    ((((createQueryBuilder "t").offset 20).runSelectQuery "*").rangeVal = some (20, 1019)) := by
  have h := offset_range_uses_limit_unless_zero_or_absent
    ((createQueryBuilder "t").offset 20) 20 "*" rfl
  simp [createQueryBuilder, QueryBuilder.offset] at h
  exact h

/-- C3: `first()` forces the executed query's limit to 1, and when the
remote reports no error it resolves with the head of the returned rows
as an optional value: `some` of the first row when at least one row
matched, and the absent value `none` (not an error, not an empty list)
when zero rows matched. -/
theorem first_limits_to_one_and_returns_head_or_null :
    ∀ (qb : QueryBuilder) (store : SupabaseQuery → SupaResponse),
      ((({ qb with _limit := some 1 } : QueryBuilder).runSelectQuery "*").limitVal = some 1)
      ∧ ((store (({ qb with _limit := some 1 } : QueryBuilder).runSelectQuery "*")).error = none →
          qb.first store
            = Except.ok (((store (({ qb with _limit := some 1 } : QueryBuilder).runSelectQuery "*")).data.getD []).head?)) := by
  intro qb store
  constructor
  · rw [runSelectQuery_spec]
  · intro h
    rw [QueryBuilder.first, QueryBuilder.runSelect]
    simp [h, Except.map]

/-- C3 witness: on a store answering with zero rows and no error,
`first()` returns `Except.ok none` — the absent value. -/
theorem first_limits_to_one_witness :
    (createQueryBuilder "t").first (fun _ => ⟨some [], none⟩) = Except.ok none := by
  have h := (first_limits_to_one_and_returns_head_or_null
    (createQueryBuilder "t") (fun _ => ⟨some [], none⟩)).2 rfl
  simpa using h

/-- C4: on a successful `update(payload)` the returned count is 1 exactly
when the remote answered with a non-null `data` field and 0 otherwise; in
particular it is 1 for every returned row list regardless of its length,
so it is not a true affected-row count. -/
theorem update_count_is_one_iff_data_present :
    ∀ (qb : QueryBuilder) (payload : Row) (store : SupabaseQuery → SupaResponse),
      (store (qb.buildUpdate payload)).error = none →
      (qb.runUpdate payload store
          = Except.ok (if (store (qb.buildUpdate payload)).data.isSome then 1 else 0))
        ∧ ∀ rows, (store (qb.buildUpdate payload)).data = some rows →
            qb.runUpdate payload store = Except.ok 1 := by
  intro qb payload store h
  constructor
  · rw [QueryBuilder.runUpdate]
    rcases hd : (store (qb.buildUpdate payload)).data with _ | rows <;> simp [h, hd]
  · intro rows hd
    rw [QueryBuilder.runUpdate]
    simp [h, hd]

/-- C4 witness: a successful update whose remote answer carries the empty
row list still reports 1, since the `data` field is present. -/
theorem update_count_witness :
    (createQueryBuilder "t").runUpdate [] (fun _ => ⟨some [], none⟩) = Except.ok 1 :=
  (update_count_is_one_iff_data_present (createQueryBuilder "t") [] (fun _ => ⟨some [], none⟩)
    rfl).2 [] rfl

/-- C5: after several `orderBy` calls, every directive is recorded in the
descriptor in call order, but only the first call's field and direction
reach the executed query's `order` primitive; the executed query is the
same as if only the first `orderBy` had been made. -/
theorem orderBy_only_first_call_applied :
    ∀ (t cols : String) (o : String × String) (os : List (String × String)),
      ((applyOrders (createQueryBuilder t) (o :: os))._orders
          = (o :: os).map (fun p => (⟨p.1, p.2⟩ : OrderDirective)))
      ∧ (((applyOrders (createQueryBuilder t) (o :: os)).runSelectQuery cols).orderVal
          = some (o.1, o.2 == "asc"))
      ∧ ((applyOrders (createQueryBuilder t) (o :: os)).runSelectQuery cols
          = (applyOrders (createQueryBuilder t) [o]).runSelectQuery cols) := by
  intro t cols o os
  refine ⟨?_, ?_, ?_⟩
  · rw [applyOrders_spec]
    simp [createQueryBuilder]
  · rw [runSelectQuery_spec, applyOrders_spec]
    simp [createQueryBuilder]
  · rw [runSelectQuery_spec, runSelectQuery_spec, applyOrders_spec, applyOrders_spec]
    simp [createQueryBuilder]

/-- C6: `db.raw` answers the one hardcoded string `"SELECT 1"` with the
canned row `[{ '1': 1 }]` and every other string with the
unsupported-placeholder row; `dbRaw` takes no remote-store oracle, since
the source never calls the Supabase client in this path. -/
theorem raw_hardcoded_select_one :
    (dbRaw "SELECT 1" = [[("1", Value.int 1)]])
    ∧ ∀ s : String, s ≠ "SELECT 1" → dbRaw s = rawUnsupportedResult := by
  constructor
  · rfl
  · intro s hs
    simp [dbRaw, hs]

/-- C6 witness: a different literal string gets the placeholder row. -/
theorem raw_hardcoded_select_one_witness :
    dbRaw "SELECT 2" = rawUnsupportedResult :=
  raw_hardcoded_select_one.2 "SELECT 2" (by decide)

/-- C7: the schema probe issues `from(t).select('count').limit(1)` and
reports existence exactly when that call resolved with no error; every
error — whether the call resolved with an error object or threw — makes
it report `false`. -/
theorem hasTable_reports_existence_iff_no_error :
    ∀ (t : String) (remote : SupabaseQuery → RemoteOutcome),
      (hasTableQuery t
          = { table := t, op := SupaOp.select "count", eqFilters := [],
              orderVal := none, limitVal := some 1, rangeVal := none })
      ∧ (hasTable t remote = true
          ↔ ∃ d, remote (hasTableQuery t) = RemoteOutcome.returned ⟨d, none⟩)
      ∧ (∀ e, remote (hasTableQuery t) = RemoteOutcome.thrown e →
          hasTable t remote = false)
      ∧ (∀ d e, remote (hasTableQuery t) = RemoteOutcome.returned ⟨d, some e⟩ →
          hasTable t remote = false) := by
  intro t remote
  refine ⟨rfl, ?_, ?_, ?_⟩
  · rw [hasTable]
    rcases hr : remote (hasTableQuery t) with resp | e
    · rcases resp with ⟨d, err⟩
      rcases err with _ | e <;> simp
    · simp
  · intro e hr
    rw [hasTable, hr]
  · intro d e hr
    rw [hasTable, hr]
    simp

/-- C7 witness: a probe that throws a remote permission error makes
`hasTable` report that the table does not exist. -/
theorem hasTable_reports_existence_witness :
    hasTable "users" (fun _ => RemoteOutcome.thrown "permission denied") = false :=
  (hasTable_reports_existence_iff_no_error "users"
    (fun _ => RemoteOutcome.thrown "permission denied")).2.2.1 "permission denied" rfl

/-- C8: for each terminal execution — select, first, insert, update,
delete — an error object in the remote answer is thrown to the caller as
that exact error value, never wrapped or replaced. -/
theorem remote_errors_propagate_unchanged :
    ∀ (qb : QueryBuilder) (store : SupabaseQuery → SupaResponse) (cols : String)
      (payload : Row) (rows : List Row) (e : DbError),
      ((store (qb.runSelectQuery cols)).error = some e →
        qb.runSelect cols store = Except.error e)
      ∧ ((store (({ qb with _limit := some 1 } : QueryBuilder).runSelectQuery "*")).error = some e →
        qb.first store = Except.error e)
      ∧ ((store (qb.buildInsert rows)).error = some e →
        qb.runInsert rows store = Except.error e)
      ∧ ((store (qb.buildUpdate payload)).error = some e →
        qb.runUpdate payload store = Except.error e)
      ∧ ((store qb.buildDelete).error = some e →
        qb.runDelete store = Except.error e) := by
  intro qb store cols payload rows e
  refine ⟨?_, ?_, ?_, ?_, ?_⟩
  · intro h
    rw [QueryBuilder.runSelect]
    simp [h]
  · intro h
    rw [QueryBuilder.first, QueryBuilder.runSelect]
    simp [h, Except.map]
  · intro h
    rw [QueryBuilder.runInsert]
    simp [h]
  · intro h
    rw [QueryBuilder.runUpdate]
    simp [h]
  · intro h
    rw [QueryBuilder.runDelete]
    simp [h]

/-- C8 witness: a store answering every query with the error `"boom"`
makes a select and a delete both fail with exactly `"boom"`. -/
theorem remote_errors_propagate_unchanged_witness :
    (createQueryBuilder "t").runSelect "*" (fun _ => ⟨none, some "boom"⟩) = Except.error "boom"
    ∧ (createQueryBuilder "t").runDelete (fun _ => ⟨none, some "boom"⟩) = Except.error "boom" := by
  have h := remote_errors_propagate_unchanged (createQueryBuilder "t")
    (fun _ => ⟨none, some "boom"⟩) "*" [] [] "boom"
  exact ⟨h.1 rfl, h.2.2.2.2 rfl⟩

/-- C9: `limit(0)` together with `offset(n)` sends 0 to the remote limit
primitive, yet the range end falls back to the default window of 1000,
giving the range `[n, n + 999]`, because the falsy limit 0 is treated as
absent in `_limit || 1000`. -/
theorem limit_zero_with_offset_uses_default_window :
    ∀ (t cols : String) (off : Int),
      ((((createQueryBuilder t).limit 0).offset off).runSelectQuery cols).limitVal = some 0
      ∧ ((((createQueryBuilder t).limit 0).offset off).runSelectQuery cols).rangeVal
          = some (off, off + 999) := by
  intro t cols off
  constructor
  · rw [runSelectQuery_spec]
    simp [createQueryBuilder, QueryBuilder.limit, QueryBuilder.offset]
  · rw [runSelectQuery_spec]
    simp [createQueryBuilder, QueryBuilder.limit, QueryBuilder.offset, jsOrDefault]
    omega

/-- C10: the executed sort is ascending exactly when the first `orderBy`
call's direction is the exact string `'asc'`, which is also what the
omitted-argument default produces; any other string, `'ascending'` and
`'ASC'` included, yields a descending sort. -/
theorem order_ascending_iff_direction_exactly_asc :
    ∀ (t cols f dir : String) (os : List (String × String)),
      (((applyOrders (createQueryBuilder t) ((f, dir) :: os)).runSelectQuery cols).orderVal
          = some (f, dir == "asc"))
      ∧ ((dir == "asc") = true ↔ dir = "asc")
      ∧ ((createQueryBuilder t).orderByDefault f = (createQueryBuilder t).orderBy f "asc")
      ∧ (((applyOrders (createQueryBuilder t) [(f, "ascending")]).runSelectQuery cols).orderVal
          = some (f, false))
      ∧ (((applyOrders (createQueryBuilder t) [(f, "ASC")]).runSelectQuery cols).orderVal
          = some (f, false)) := by
  intro t cols f dir os
  refine ⟨?_, ?_, rfl, ?_, ?_⟩
  · rw [runSelectQuery_spec, applyOrders_spec]
    simp [createQueryBuilder]
  · exact beq_iff_eq
  · rw [runSelectQuery_spec, applyOrders_spec]
    simp [createQueryBuilder]
  · rw [runSelectQuery_spec, applyOrders_spec]
    simp [createQueryBuilder]
